/-
Verification of the accelerated-attention dispatch layer
(`blocktorch_bridge/flash_attn_function.py`) against its specification.

The development shallowly embeds the Python module:
* tensors are records of metadata (shape, strides, dtype, device, autograd
  flags) together with their logical contents (a flat list of rationals —
  the dtype's values are modelled by `ℚ`);
* the process heap holding tensor objects is an explicit `Store` (a list of
  tensor values); allocation appends, in-place `copy_` writes a cell;
* the native Metal kernels and `torch.autograd.grad` are external to the
  repository and are modelled as oracle parameters;
* Python exceptions are an explicit error type; `Except` models raising;
* the attention mathematics (`_ref_attention`) works on `Fin`-indexed
  matrices over `ℚ`, parameterised by the exponential function `E` of the
  score dtype (this lets theorems state exactly which analytic facts about
  the dtype's `exp` they use, e.g. underflow at the most negative
  representable value).
-/
import Mathlib

set_option autoImplicit false
set_option synthInstance.maxSize 1000

open BigOperators

/-! ## Tensor data model (§3 of the spec: Tensor Descriptor) -/

/-- Device locality of a tensor (`t.device.type` in the source): the
accelerator (`"mps"`) or anything else (modelled as `cpu`). -/
inductive Device where
  | mps
  | cpu
  deriving DecidableEq, Repr

/-- Element type of a tensor (32-bit float or a 16-bit variant).  Only the
metadata matters to the claims; values are modelled by `ℚ`. -/
inductive DType where
  | float32
  | float16
  deriving DecidableEq, Repr

/-- Shallow embedding of a `torch.Tensor`: metadata plus logical contents.
`data` lists the elements in row-major logical order; `strides` is the
physical stride tuple (`t.stride()`); `requiresGrad`/`isLeaf` are the
autograd flags consulted by the storage normalizer. -/
structure Tensor where
  shape : List Nat
  strides : List Nat
  dtype : DType
  device : Device
  requiresGrad : Bool
  isLeaf : Bool
  data : List ℚ
  deriving DecidableEq, Repr

instance : Inhabited Tensor :=
  ⟨{ shape := [], strides := [], dtype := DType.float32, device := Device.cpu,
     requiresGrad := false, isLeaf := true, data := [] }⟩

/-- Number of elements of a shape (`torch.Size.numel`). -/
def numel (shape : List Nat) : Nat := shape.prod

/-- Canonical row-major strides implied by a shape: stride of dimension `i`
is the number of elements of `shape[i+1:]`.  This is exactly the
`expected_strides` tuple computed in `_ensure_shared_mps_tensor`. -/
def rowMajorStrides : List Nat → List Nat
  | [] => []
  | _ :: rest => numel rest :: rowMajorStrides rest

/-- Core of `Tensor.is_contiguous`, processing `(size, stride)` pairs with
the dimensions in the given order but checked right-to-left, threading the
expected stride `z` (initially 1) exactly as c10's `compute_contiguous`
loop does: size-1 dimensions are skipped; any other dimension must have
stride equal to `z`, which is then multiplied by the size.  Returns the
final expected stride on success. -/
def contigFromRight : List (Nat × Nat) → Option Nat
  | [] => some 1
  | (sz, st) :: rest =>
    match contigFromRight rest with
    | none => none
    | some z => if sz = 1 then some z else if st = z then some (z * sz) else none

/-- Embedding of `t.is_contiguous()`: true for empty tensors, otherwise the row-major
stride check of `compute_contiguous` (size-1 dimensions exempt). -/
def Tensor.is_contiguous (t : Tensor) : Bool :=
  t.shape.contains 0 || (contigFromRight (t.shape.zip t.strides)).isSome

/-- Embedding of `t.contiguous()`: the same tensor if already contiguous, otherwise a
fresh row-major copy with identical logical contents.  The copy is produced
by a differentiable op, so it is a leaf only when it does not require
gradients. -/
def contiguousOp (t : Tensor) : Tensor :=
  if t.is_contiguous then t
  else { t with strides := rowMajorStrides t.shape, isLeaf := !t.requiresGrad }

/-- Embedding of `t.clone()`: a fresh tensor with identical metadata and contents.  For
the dense, non-overlapping tensors this module clones, `clone` preserves
the stride layout; the result is a graph node (non-leaf) exactly when it
requires gradients. -/
def cloneOp (t : Tensor) : Tensor :=
  { t with isLeaf := !t.requiresGrad }

/-- Embedding of `t.detach()`: drop autograd tracking; the result is a leaf. -/
def detachOp (t : Tensor) : Tensor :=
  { t with requiresGrad := false, isLeaf := true }

/-- Embedding of `t.requires_grad_(True)`: in-place enabling of gradient tracking (used
on the fresh detached clones of the fallback path, which stay leaves). -/
def requiresGradOn (t : Tensor) : Tensor :=
  { t with requiresGrad := true }

/-- Value equality of tensors in the sense of the spec's Storage Normalizer
property: same shape, same dtype, same numeric contents (physical layout and
autograd flags may differ). -/
def value_eq (a b : Tensor) : Bool :=
  a.shape = b.shape && a.dtype = b.dtype && a.data = b.data

/-- Embedding of `torch.empty_like(t)`: a fresh buffer with `t`'s shape/dtype/device and
unspecified contents (modelled as zeros — the dispatcher overwrites them
before use), not tracked by autograd. -/
def empty_like (t : Tensor) : Tensor :=
  { t with data := List.replicate (numel t.shape) 0,
           requiresGrad := false, isLeaf := true }

/-! ## Source helpers `_contig` and `_ensure_shared_mps_tensor` -/

/-- Source helper `_contig`: return a contiguous tensor without changing values (`None`
passes through; an already-contiguous tensor is returned as the identical
object). -/
def _contig : Option Tensor → Option Tensor
  | none => none
  | some t => if !t.is_contiguous then some (contiguousOp t) else some t

/-- Source helper `_ensure_shared_mps_tensor` (the Storage Normalizer): materialize an MPS tensor into (likely)
shared `MTLBuffer` storage.  `None` and non-MPS tensors pass through
unchanged; a non-contiguous MPS tensor becomes `t.contiguous().clone()`;
a contiguous tensor whose strides differ from the canonical row-major
strides is treated as a view and cloned; a tensor that requires gradients
or is not a leaf becomes `t.clone().detach()`; otherwise the tensor itself
is returned. -/
def _ensure_shared_mps_tensor : Option Tensor → Option Tensor
  | none => none
  | some t =>
    if t.device ≠ Device.mps then some t
    else if !t.is_contiguous then some (cloneOp (contiguousOp t))
    else if t.strides ≠ rowMajorStrides t.shape then some (cloneOp t)
    else if t.requiresGrad || !t.isLeaf then some (detachOp (cloneOp t))
    else some t

/-- Tensor-level view of `_ensure_shared_mps_tensor` for the (always
non-`None`) operands of the backward dispatcher. -/
def ensT (t : Tensor) : Tensor :=
  (_ensure_shared_mps_tensor (some t)).getD t

/-! ## Python exceptions, process environment, and the heap -/

/-- Python exception classes the module distinguishes: the backward
dispatcher catches exactly `RuntimeError` (`except RuntimeError as e`);
the forward validation raises `ValueError`; every other exception class
(e.g. `TypeError`, `IndexError`) is `otherError`. -/
inductive PyErr where
  | runtimeError (msg : String)
  | valueError (msg : String)
  | otherError (msg : String)
  deriving DecidableEq, Repr

deriving instance DecidableEq for Except

/-- Is an `Except` outcome a raised `ValueError` (the spec's
ValidationError for `head_dim` / `dropout_p`)? -/
def is_value_error {α : Type} : Except PyErr α → Bool
  | .error (.valueError _) => true
  | _ => false

/-- Process-wide state consulted by the module: whether `torch` imported
(`torch is not None`) and whether the native forward and
backward-with-dropout operations are registered on
`torch.ops.flash_attn_mps`. -/
structure TorchEnv where
  torchLoaded : Bool
  fwdRegistered : Bool
  bwdRegistered : Bool
  deriving DecidableEq, Repr

/-- The heap of tensor objects.  Python variables and the gradient context
hold references (indices); allocation appends a cell; in-place ops
(`copy_`) overwrite a cell. -/
structure Store where
  cells : List Tensor
  deriving DecidableEq, Repr

/-- Dereference a tensor id (out-of-range ids read as the default tensor;
the dispatcher theorems are stated for live ids). -/
def Store.read (s : Store) (i : Nat) : Tensor :=
  s.cells.getD i default

/-- Allocate a fresh tensor object, returning its id. -/
def Store.alloc (s : Store) (t : Tensor) : Nat × Store :=
  (s.cells.length, ⟨s.cells ++ [t]⟩)

/-- Overwrite the cell `i` (an in-place tensor mutation such as `copy_`). -/
def Store.write (s : Store) (i : Nat) (t : Tensor) : Store :=
  ⟨s.cells.set i t⟩

/-- Embedding of `dst.copy_(src)`: overwrite `dst`'s contents with `src`'s, keeping
`dst`'s metadata; raises `RuntimeError` when the shapes do not line up
(torch additionally permits broadcasts, which the dispatcher never relies
on). -/
def copy_into (dst src : Tensor) : Except PyErr Tensor :=
  if src.shape = dst.shape then .ok { dst with data := src.data }
  else .error (.runtimeError "copy_ shape mismatch")

/-- Store-level `_contig` for the forward dispatcher: an already-contiguous
tensor keeps its identity (same id); otherwise the contiguous copy is a
fresh object. -/
def contigS (i : Nat) (s : Store) : Nat × Store :=
  let t := s.read i
  if !t.is_contiguous then s.alloc (contiguousOp t) else (i, s)

/-- The gradient context (`ctx`): references to the saved tensors
`q, k, v, mask` plus the immutable call parameters. -/
structure Ctx where
  qId : Nat
  kId : Nat
  vId : Nat
  maskId : Nat
  scale : ℚ
  dropout_p : ℚ
  causal : Bool
  deriving DecidableEq, Repr

/-- The native forward kernel
`torch.ops.flash_attn_mps._flash_attn_fwd(q, k, v, scale, dropout_p,
causal) -> (out, mask)`, an opaque external operation. -/
def KernelFwd : Type :=
  Tensor → Tensor → Tensor → ℚ → ℚ → Bool → Except PyErr (Tensor × Tensor)

/-- The native backward kernel
`torch.ops.flash_attn_mps._flash_attn_bwd_dropout(grad_out, q, k, v, mask,
scale, dropout_p, causal) -> (grad_q, grad_k, grad_v)`. -/
def KernelBwd : Type :=
  Tensor → Tensor → Tensor → Tensor → Tensor → ℚ → ℚ → Bool →
    Except PyErr (Tensor × Tensor × Tensor)

/-- Oracle for `torch.autograd.grad(out, (q_, k_, v_), grad_out)` where
`out = _ref_attention(q_, k_, v_, scale, causal)`: reverse-mode
differentiation of the reference attention, an operation of the external
autodiff engine, modelled as an oracle of the fresh differentiable inputs,
the call parameters, and the seed. -/
def AutogradOracle : Type :=
  Tensor → Tensor → Tensor → ℚ → Bool → Tensor → Tensor × Tensor × Tensor

/-! ## Forward dispatcher (`FlashAttnFunction.forward`) -/

/-- The post-validation tail of the forward pass: invoke the native forward
kernel on the contiguous operands, materialize its two results, save
`q, k, v, _contig(mask)` into the gradient context together with the call
parameters, and return `(out, mask)`. -/
def forward_invoke (kfwd : KernelFwd) (qId kId vId : Nat)
    (scale dropout_p : ℚ) (causal : Bool) (s : Store) :
    Except PyErr (Ctx × Nat × Nat) × Store :=
  match kfwd (s.read qId) (s.read kId) (s.read vId) scale dropout_p causal with
  | .error e => (.error e, s)
  | .ok (out, mask) =>
    let outId := (s.alloc out).1
    let s1 := (s.alloc out).2
    let maskId := (s1.alloc mask).1
    let s2 := (s1.alloc mask).2
    let maskIdC := (contigS maskId s2).1
    let s3 := (contigS maskId s2).2
    (.ok ({ qId := qId, kId := kId, vId := vId, maskId := maskIdC,
            scale := scale, dropout_p := dropout_p, causal := causal },
          outId, maskId), s3)

/-- The forward dispatcher `FlashAttnFunction.forward(ctx, q, k, v, scale, dropout_p, causal)`.
Guards in source order: torch present, native forward op registered, all of
q/k/v on the `mps` device (each failing by `_fail`, i.e. `RuntimeError`);
then `_contig` on q/k/v; then the two `ValueError` validations
(`head_dim % 8` and `dropout_p ∈ [0,1)`); then the kernel invocation.
Reading `q.shape[-1]` of a 0-dimensional tensor raises `IndexError`. -/
def FlashAttnFunction.forward (env : TorchEnv) (kfwd : KernelFwd)
    (qId kId vId : Nat) (scale dropout_p : ℚ) (causal : Bool) (s : Store) :
    Except PyErr (Ctx × Nat × Nat) × Store :=
  if !env.torchLoaded then
    (.error (.runtimeError "PyTorch not available (did you install torch?)"), s)
  else if !env.fwdRegistered then
    (.error (.runtimeError "flash_attn_mps kernel not loaded"), s)
  else if (s.read qId).device ≠ Device.mps ∨ (s.read kId).device ≠ Device.mps ∨
      (s.read vId).device ≠ Device.mps then
    (.error (.runtimeError "Input tensors must be on mps device"), s)
  else
    let qId' := (contigS qId s).1
    let s1 := (contigS qId s).2
    let kId' := (contigS kId s1).1
    let s2 := (contigS kId s1).2
    let vId' := (contigS vId s2).1
    let s3 := (contigS vId s2).2
    match (s3.read qId').shape.getLast? with
    | none => (.error (.otherError "IndexError: tuple index out of range"), s3)
    | some head_dim =>
      if head_dim % 8 ≠ 0 then
        (.error (.valueError "head_dim must be multiple of eight"), s3)
      else if ¬ (0 ≤ dropout_p ∧ dropout_p < 1) then
        (.error (.valueError "dropout_p must be in [0,1)"), s3)
      else
        forward_invoke kfwd qId' kId' vId' scale dropout_p causal s3

/-! ## Backward dispatcher (`FlashAttnFunction.backward`) -/

/-- The `try` block of the backward dispatcher: call the native backward
kernel on the shared-storage operands and `copy_` its three results into
the pre-allocated gradient buffers, mutating the store cell by cell; the
first raised exception aborts the block, keeping the mutations already
performed. -/
def try_metal (kbwd : KernelBwd) (grad_out q_s k_s v_s mask_s : Tensor)
    (scale dropout_p : ℚ) (causal : Bool) (gqId gkId gvId : Nat) (s : Store) :
    Except PyErr Unit × Store :=
  match kbwd grad_out q_s k_s v_s mask_s scale dropout_p causal with
  | .error e => (.error e, s)
  | .ok (gq_m, gk_m, gv_m) =>
    match copy_into (s.read gqId) gq_m with
    | .error e => (.error e, s)
    | .ok cq =>
      let s1 := s.write gqId cq
      match copy_into (s1.read gkId) gk_m with
      | .error e => (.error e, s1)
      | .ok ck =>
        let s2 := s1.write gkId ck
        match copy_into (s2.read gvId) gv_m with
        | .error e => (.error e, s2)
        | .ok cv => (.ok (), s2.write gvId cv)

/-- The reference fallback of the backward dispatcher: fresh differentiable
copies `x.detach().clone().requires_grad_(True)` of the saved `q, k, v`,
then reverse-mode gradients of `_ref_attention` on them seeded by the
(storage-normalized) incoming gradient.  The saved dropout `mask` and
`dropout_p` are not consulted. -/
def reference_fallback (ag : AutogradOracle) (q k v : Tensor)
    (scale : ℚ) (causal : Bool) (grad_out : Tensor) :
    Tensor × Tensor × Tensor :=
  ag (requiresGradOn (cloneOp (detachOp q)))
     (requiresGradOn (cloneOp (detachOp k)))
     (requiresGradOn (cloneOp (detachOp v)))
     scale causal grad_out

/-- The backward dispatcher `FlashAttnFunction.backward(ctx, grad_out)`.  Mirrors the source: check
torch; read the saved tensors; pre-allocate the gradient buffers with
`empty_like`; normalize `grad_out, q, k, v, mask` to shared storage; if the
native backward op is registered, run the `try` block and on a caught
`RuntimeError` (only that class) recompute via the reference fallback; if
it is unregistered, fall back when the debug toggle is on and otherwise
raise.  Every successful path returns the 6-tuple
`(grad_q, grad_k, grad_v, None, None, None)`. -/
def FlashAttnFunction.backward (dbg : Bool) (env : TorchEnv)
    (kbwd : KernelBwd) (ag : AutogradOracle) (ctx : Ctx) (gOutId : Nat)
    (s : Store) :
    Except PyErr (Nat × Nat × Nat × Option Nat × Option Nat × Option Nat) × Store :=
  if !env.torchLoaded then (.error (.runtimeError "PyTorch not available"), s)
  else
    let q := s.read ctx.qId
    let k := s.read ctx.kId
    let v := s.read ctx.vId
    let mask := s.read ctx.maskId
    let gOut := s.read gOutId
    let gqId := (s.alloc (empty_like q)).1
    let s1 := (s.alloc (empty_like q)).2
    let gkId := (s1.alloc (empty_like k)).1
    let s2 := (s1.alloc (empty_like k)).2
    let gvId := (s2.alloc (empty_like v)).1
    let s3 := (s2.alloc (empty_like v)).2
    let grad_out := ensT gOut
    let q_shared := ensT q
    let k_shared := ensT k
    let v_shared := ensT v
    let mask_shared := ensT mask
    if env.bwdRegistered then
      match try_metal kbwd grad_out q_shared k_shared v_shared mask_shared
          ctx.scale ctx.dropout_p ctx.causal gqId gkId gvId s3 with
      | (.ok _, s4) => (.ok (gqId, gkId, gvId, none, none, none), s4)
      | (.error (.runtimeError _), s4) =>
        let fq := (reference_fallback ag q k v ctx.scale ctx.causal grad_out).1
        let fk := (reference_fallback ag q k v ctx.scale ctx.causal grad_out).2.1
        let fv := (reference_fallback ag q k v ctx.scale ctx.causal grad_out).2.2
        let fqId := (s4.alloc fq).1
        let s5 := (s4.alloc fq).2
        let fkId := (s5.alloc fk).1
        let s6 := (s5.alloc fk).2
        let fvId := (s6.alloc fv).1
        let s7 := (s6.alloc fv).2
        (.ok (fqId, fkId, fvId, none, none, none), s7)
      | (.error e, s4) => (.error e, s4)
    else if dbg then
      let fq := (reference_fallback ag q k v ctx.scale ctx.causal grad_out).1
      let fk := (reference_fallback ag q k v ctx.scale ctx.causal grad_out).2.1
      let fv := (reference_fallback ag q k v ctx.scale ctx.causal grad_out).2.2
      let fqId := (s3.alloc fq).1
      let s4 := (s3.alloc fq).2
      let fkId := (s4.alloc fk).1
      let s5 := (s4.alloc fk).2
      let fvId := (s5.alloc fv).1
      let s6 := (s5.alloc fv).2
      (.ok (fqId, fkId, fvId, none, none, none), s6)
    else
      (.error (.runtimeError "Metal FlashAttention backward kernel unavailable (no fallback)"), s3)

/-! ## Reference attention (`_ref_attention`), on `(S, D)` matrices

The source expects tensors shaped `(B, H, S, D)`; every operation it uses
(`matmul` on the last two axes, `triu` masking, `softmax dim=-1`) acts
slice-wise in the batch and head axes, so the mathematics is embedded on a
single `(S, D)` slice (functions `Fin S → Fin D → ℚ`) and lifted pointwise
to batches by `_ref_attention4`.  `E : ℚ → ℚ` is the exponential function
of the score dtype (softmax is `E` of each score divided by the row sum of
`E`); `fmin` is `torch.finfo(scores.dtype).min`, the most negative
representable value of the score dtype. -/

/-- Embedding of `torch.matmul(q, k.transpose(-2, -1))` on one slice: the `(S, S)`
matrix of dot products of query rows with key rows. -/
def matmulQKt {S D : ℕ} (q k : Fin S → Fin D → ℚ) : Fin S → Fin S → ℚ :=
  fun i j => ∑ d, q i d * k j d

/-- Embedding of `torch.triu(torch.ones((s, s), dtype=torch.bool), diagonal=1)`: true
exactly on the strictly-upper-triangular entries. -/
def triu_ones (S : ℕ) : Fin S → Fin S → Bool :=
  fun i j => decide ((i : ℕ) + 1 ≤ (j : ℕ))

/-- Embedding of `scores.masked_fill(mask, c)`: replace the entries selected by the
boolean mask with the constant `c`. -/
def masked_fill {S : ℕ} (sc : Fin S → Fin S → ℚ) (m : Fin S → Fin S → Bool)
    (c : ℚ) : Fin S → Fin S → ℚ :=
  fun i j => if m i j then c else sc i j

/-- Embedding of `torch.softmax(scores, dim=-1)` with the dtype's exponential `E`:
each row is `E` of its entries divided by their sum.  (A row whose `E`
values all vanish by underflow divides zero by zero; `ℚ` makes that row
zero, where the dtype would produce NaNs — no claim touches that corner.) -/
def softmax_last {S : ℕ} (E : ℚ → ℚ) (sc : Fin S → Fin S → ℚ) :
    Fin S → Fin S → ℚ :=
  fun i j => E (sc i j) / ∑ j', E (sc i j')

/-- The attention scores of `_ref_attention` after the optional causal
mask: `(q · kᵀ) * scale`, with the strictly-upper-triangular entries
replaced by `fmin` when `causal`. -/
def attn_scores {S D : ℕ} (q k : Fin S → Fin D → ℚ) (scale : ℚ)
    (causal : Bool) (fmin : ℚ) : Fin S → Fin S → ℚ :=
  let scores := fun i j => matmulQKt q k i j * scale
  if causal then masked_fill scores (triu_ones S) fmin else scores

/-- The attention probabilities of `_ref_attention`: softmax of the masked
scores over the last axis. -/
def attn_probs {S D : ℕ} (E : ℚ → ℚ) (fmin : ℚ) (q k : Fin S → Fin D → ℚ)
    (scale : ℚ) (causal : Bool) : Fin S → Fin S → ℚ :=
  softmax_last E (attn_scores q k scale causal fmin)

/-- Source function `_ref_attention(q, k, v, scale, causal)`: scores, optional causal
`masked_fill` with `torch.finfo(scores.dtype).min`, softmax over the last
axis, and `probs · v`.  Dropout is intentionally omitted (source comment)
and the function takes no mask. -/
def _ref_attention {S D : ℕ} (E : ℚ → ℚ) (fmin : ℚ)
    (q k v : Fin S → Fin D → ℚ) (scale : ℚ) (causal : Bool) :
    Fin S → Fin D → ℚ :=
  fun i d => ∑ j, attn_probs E fmin q k scale causal i j * v j d

/-- Lifting of `_ref_attention` to full `(B, H, S, D)` tensors: the batched `matmul`,
shared causal mask, and `softmax dim=-1` all act on each `(b, h)` slice
independently. -/
def _ref_attention4 {B H S D : ℕ} (E : ℚ → ℚ) (fmin : ℚ)
    (q k v : Fin B → Fin H → Fin S → Fin D → ℚ) (scale : ℚ) (causal : Bool) :
    Fin B → Fin H → Fin S → Fin D → ℚ :=
  fun b h => _ref_attention E fmin (q b h) (k b h) (v b h) scale causal

/-- The value `torch.finfo(torch.float32).min = -(2 - 2^-23) * 2^127`, the most
negative representable single-precision value, as a rational. -/
def float32_finfo_min : ℚ := -((2 ^ 24 - 1) * 2 ^ 104)

/-- The spec's description of Reference Attention (§4.5), written from its
words: `scores = (q · k^T) * scale`; when `causal`, strictly-upper-
triangular score entries (`i < j`) are replaced by the most negative
representable value of the score dtype before the softmax; softmax over
the last axis; `output = probs · v`; no dropout anywhere. -/
def spec_reference_attention {S D : ℕ} (E : ℚ → ℚ) (fmin : ℚ)
    (q k v : Fin S → Fin D → ℚ) (scale : ℚ) (causal : Bool) :
    Fin S → Fin D → ℚ :=
  let scores : Fin S → Fin S → ℚ := fun i j => (∑ d, q i d * k j d) * scale
  let masked : Fin S → Fin S → ℚ :=
    fun i j => if causal ∧ (i : ℕ) < (j : ℕ) then fmin else scores i j
  let probs := softmax_last E masked
  fun i d => ∑ j, probs i j * v j d

/-! ## Gradients of the fallback path and the dropout contract

`_ref_attention` is linear in `v` with coefficient matrix
`attn_probs` (lemma `_ref_attention_linear_v` below), so the reverse-mode
gradient with respect to `v` that `torch.autograd.grad` computes for it,
seeded by `g`, is the transposed-probability contraction `probsᵀ · g`
(lemma `fallback_grad_v_adjoint` pins this down as the adjoint). -/

/-- The gradient for `v` produced by the backward fallback
(`torch.autograd.grad(_ref_attention(q_, k_, v_, scale, causal),
(q_, k_, v_), grad_out)`, third component): `probsᵀ · g`.  Note it takes
neither the dropout mask nor `dropout_p`. -/
def fallback_grad_v {S D : ℕ} (E : ℚ → ℚ) (fmin : ℚ)
    (q k : Fin S → Fin D → ℚ) (scale : ℚ) (causal : Bool)
    (g : Fin S → Fin D → ℚ) : Fin S → Fin D → ℚ :=
  fun j d => ∑ i, attn_probs E fmin q k scale causal i j * g i d

/-- Modelled from the spec: the dropout semantics the native kernel records
in `mask` (§4.4 step 4; the kernel itself is an external operation absent
from the repository).  The kept positions (`mask = true`) carry the
attention probability scaled by `1 / (1 - dropout_p)` (inverted dropout);
dropped positions carry zero. -/
def dropout_probs {S D : ℕ} (E : ℚ → ℚ) (fmin : ℚ)
    (q k : Fin S → Fin D → ℚ) (scale : ℚ) (causal : Bool)
    (mask : Fin S → Fin S → Bool) (dropout_p : ℚ) : Fin S → Fin S → ℚ :=
  fun i j =>
    if mask i j then attn_probs E fmin q k scale causal i j / (1 - dropout_p)
    else 0

/-- Modelled from the spec: the gradient for `v` demanded by the native
kernel's dropout contract — the output is `dropout_probs · v`, linear in
`v`, so the reverse-mode gradient seeded by `g` flows only through kept
positions, scaled by `1 / (1 - dropout_p)`. -/
def dropout_contract_grad_v {S D : ℕ} (E : ℚ → ℚ) (fmin : ℚ)
    (q k : Fin S → Fin D → ℚ) (scale : ℚ) (causal : Bool)
    (mask : Fin S → Fin S → Bool) (dropout_p : ℚ)
    (g : Fin S → Fin D → ℚ) : Fin S → Fin D → ℚ :=
  fun j d => ∑ i, dropout_probs E fmin q k scale causal mask dropout_p i j * g i d

/-! ## Helper lemmas -/

lemma getD_append_cons {α : Type} (l : List α) (t : α) (rest : List α) (d : α) :
    (l ++ t :: rest).getD l.length d = t := by
  induction l with
  | nil => rfl
  | cons x xs ih => exact ih

lemma getD_append_of_lt {α : Type} (l xs : List α) (i : Nat) (d : α)
    (h : i < l.length) : (l ++ xs).getD i d = l.getD i d := by
  induction l generalizing i with
  | nil => simp at h
  | cons x ys ih =>
    cases i with
    | zero => rfl
    | succ n => simpa using ih n (by simpa using h)

lemma take_append_self {α : Type} (l xs : List α) :
    (l ++ xs).take l.length = l := by
  induction l with
  | nil => rfl
  | cons x ys ih => simp [ih]

lemma take_append_of_le {α : Type} (l xs : List α) (n : Nat)
    (h : n ≤ l.length) : (l ++ xs).take n = l.take n := by
  induction l generalizing n with
  | nil => simp_all
  | cons x ys ih =>
    cases n with
    | zero => rfl
    | succ m => simpa using ih m (by simpa using h)

lemma take_set_of_le {α : Type} (l : List α) (i n : Nat) (x : α)
    (h : n ≤ i) : (l.set i x).take n = l.take n := by
  induction l generalizing i n with
  | nil => simp
  | cons y ys ih =>
    cases i with
    | zero => cases n with
      | zero => simp
      | succ m => omega
    | succ j => cases n with
      | zero => simp
      | succ m => simpa using ih j m (by omega)

/-- The canonical row-major strides always pass the c10 contiguity check,
accumulating to the element count. -/
lemma contigFromRight_rowMajor (shape : List Nat) :
    contigFromRight (shape.zip (rowMajorStrides shape)) = some (numel shape) := by
  induction shape with
  | nil => rfl
  | cons d rest ih =>
    have hz : contigFromRight (List.zipWith Prod.mk rest (rowMajorStrides rest)) =
        some (numel rest) := ih
    simp only [rowMajorStrides, List.zip_cons_cons, contigFromRight]
    rw [hz]
    by_cases hd : d = 1
    · simp [hd, numel]
    · simp [hd, numel, Nat.mul_comm]

/-- A tensor whose strides are the canonical row-major strides of its shape
is contiguous. -/
lemma is_contiguous_of_rowMajor (t : Tensor)
    (h : t.strides = rowMajorStrides t.shape) : t.is_contiguous = true := by
  simp [Tensor.is_contiguous, h, contigFromRight_rowMajor]

/-- The result of `t.contiguous()` is contiguous. -/
lemma contiguousOp_is_contiguous (t : Tensor) :
    (contiguousOp t).is_contiguous = true := by
  by_cases h : t.is_contiguous = true
  · rw [contiguousOp, if_pos h]
    exact h
  · rw [contiguousOp, if_neg h]
    exact is_contiguous_of_rowMajor _ rfl

/-- For fixed `q`, `k`, `_ref_attention` is the linear map of `v` with
coefficient matrix `attn_probs` — the fact that pins its reverse-mode
gradient with respect to `v`. -/
lemma _ref_attention_linear_v {S D : ℕ} (E : ℚ → ℚ) (fmin : ℚ)
    (q k v : Fin S → Fin D → ℚ) (scale : ℚ) (causal : Bool) (i : Fin S) (d : Fin D) :
    _ref_attention E fmin q k v scale causal i d =
      ∑ j, attn_probs E fmin q k scale causal i j * v j d := rfl

/-- The map `fallback_grad_v` is the adjoint of the direction-to-output map of
`_ref_attention` in `v`: pairing the output against the seed `g` equals
pairing the direction against `fallback_grad_v` — exactly the
vector-Jacobian product `torch.autograd.grad` computes for the (linear in
`v`) reference attention. -/
lemma sum3_comm {S D : ℕ} (f : Fin S → Fin D → Fin S → ℚ) :
    ∑ i, ∑ d, ∑ j, f i d j = ∑ j, ∑ d, ∑ i, f i d j :=
  calc ∑ i, ∑ d, ∑ j, f i d j
      = ∑ i, ∑ j, ∑ d, f i d j := Finset.sum_congr rfl (fun _ _ => Finset.sum_comm)
    _ = ∑ j, ∑ i, ∑ d, f i d j := Finset.sum_comm
    _ = ∑ j, ∑ d, ∑ i, f i d j := Finset.sum_congr rfl (fun _ _ => Finset.sum_comm)

lemma fallback_grad_v_adjoint {S D : ℕ} (E : ℚ → ℚ) (fmin : ℚ)
    (q k w g : Fin S → Fin D → ℚ) (scale : ℚ) (causal : Bool) :
    ∑ i : Fin S, ∑ d : Fin D, _ref_attention E fmin q k w scale causal i d * g i d =
      ∑ j : Fin S, ∑ d : Fin D, w j d * fallback_grad_v E fmin q k scale causal g j d := by
  have h1 : (∑ i : Fin S, ∑ d : Fin D, _ref_attention E fmin q k w scale causal i d * g i d)
      = ∑ i : Fin S, ∑ d : Fin D, ∑ j : Fin S,
          attn_probs E fmin q k scale causal i j * w j d * g i d := by
    simp [_ref_attention, Finset.sum_mul]
  have h2 : (∑ j : Fin S, ∑ d : Fin D, w j d * fallback_grad_v E fmin q k scale causal g j d)
      = ∑ j : Fin S, ∑ d : Fin D, ∑ i : Fin S,
          w j d * (attn_probs E fmin q k scale causal i j * g i d) := by
    simp [fallback_grad_v, Finset.mul_sum]
  rw [h1, h2,
    sum3_comm (fun i d j => attn_probs E fmin q k scale causal i j * w j d * g i d)]
  exact Finset.sum_congr rfl fun j _ => Finset.sum_congr rfl fun d _ =>
    Finset.sum_congr rfl fun i _ => by ring

/-- Cloning does not affect the contiguity check (it reads only shape and
strides). -/
lemma is_contiguous_cloneOp (t : Tensor) :
    (cloneOp t).is_contiguous = t.is_contiguous := rfl

/-- Detaching does not affect the contiguity check. -/
lemma is_contiguous_detachOp (t : Tensor) :
    (detachOp t).is_contiguous = t.is_contiguous := rfl

/-- Unfolding of the storage normalizer at a present tensor. -/
lemma ensure_some (t : Tensor) : _ensure_shared_mps_tensor (some t) =
    if t.device ≠ Device.mps then some t
    else if !t.is_contiguous then some (cloneOp (contiguousOp t))
    else if t.strides ≠ rowMajorStrides t.shape then some (cloneOp t)
    else if t.requiresGrad || !t.isLeaf then some (detachOp (cloneOp t))
    else some t := rfl

/-- The storage normalizer never changes shape, dtype, or contents. -/
lemma ensT_value_eq (t : Tensor) : value_eq (ensT t) t = true := by
  unfold ensT
  rw [ensure_some]
  unfold contiguousOp
  split_ifs <;> simp [value_eq, cloneOp, detachOp]

/-! ## Claim theorems -/

/-- C7: the Storage Normalizer (`_ensure_shared_mps_tensor`) is
value-preserving and idempotent up to value equality: for every tensor `t`,
`normalize(t)` has the same shape, dtype, and numeric contents as `t`, and
normalizing an already-normalized tensor again returns a value-equal
tensor — normalization never alters numeric content. -/
theorem C7_storage_normalizer_value_preserving (t : Tensor) :
    value_eq (ensT t) t = true ∧ value_eq (ensT (ensT t)) (ensT t) = true :=
  ⟨ensT_value_eq t, ensT_value_eq (ensT t)⟩

/-- C9: on a tensor resident on the accelerator (`mps`) device,
`_ensure_shared_mps_tensor` returns a contiguous tensor with the same
shape, dtype, and numeric contents; on `None`, or on any tensor not on the
accelerator device, it returns its argument unchanged. -/
theorem C9_ensure_shared_mps_tensor_contract :
    _ensure_shared_mps_tensor none = none ∧
    ∀ t : Tensor,
      if t.device = Device.mps then
        (ensT t).is_contiguous = true ∧ value_eq (ensT t) t = true
      else
        _ensure_shared_mps_tensor (some t) = some t := by
  refine ⟨rfl, fun t => ?_⟩
  by_cases hd : t.device = Device.mps
  · rw [if_pos hd]
    refine ⟨?_, ensT_value_eq t⟩
    unfold ensT
    rw [ensure_some, if_neg (by simp [hd])]
    by_cases h2 : t.is_contiguous = true
    · simp only [h2, Bool.not_true, Bool.false_eq_true, if_false]
      by_cases h3 : t.strides = rowMajorStrides t.shape
      · simp only [h3, ne_eq, not_true_eq_false, if_false]
        by_cases h4 : (t.requiresGrad || !t.isLeaf) = true
        · simpa [h4, is_contiguous_detachOp, is_contiguous_cloneOp] using h2
        · simpa [h4] using h2
      · simpa [h3, is_contiguous_cloneOp] using h2
    · simp only [h2]
      simpa [is_contiguous_cloneOp] using contiguousOp_is_contiguous t
  · rw [if_neg hd]
    rw [ensure_some, if_pos (by simp [hd])]

/-- C5: `_ref_attention(q, k, v, scale, causal)` equals the spec's
composition — `scores = (q · kᵀ) * scale`; when causal, the
strictly-upper-triangular score entries are replaced by the most negative
representable value of the score dtype before the softmax; softmax over
the last axis; `probs · v` — with no dropout applied inside the function
(neither side consults a dropout mask or probability). -/
theorem C5_ref_attention_is_spec_composition {S D : ℕ} (E : ℚ → ℚ) (fmin : ℚ)
    (q k v : Fin S → Fin D → ℚ) (scale : ℚ) (causal : Bool) :
    _ref_attention E fmin q k v scale causal =
      spec_reference_attention E fmin q k v scale causal := by
  funext i d
  unfold _ref_attention spec_reference_attention attn_probs attn_scores
    softmax_last masked_fill triu_ones matmulQKt
  cases causal <;> simp [Nat.lt_iff_add_one_le]

/-- C4: for every call of `_ref_attention` with `causal = True`, the output
at sequence position `i` is invariant to changes of the key and value
tensors at any position `j > i`: two runs whose `k` and `v` agree on all
positions `≤ i` produce identical outputs at position `i` (no future
leakage).  `E fmin = 0` is the dtype fact making masked probabilities
exactly zero: the exponential of the score dtype underflows to zero at the
most negative representable value (`exp` of any single-precision value
below about `-104` is rounded to `0.0`). -/
theorem C4_causal_no_future_leakage {S D : ℕ} (E : ℚ → ℚ) (fmin : ℚ)
    (hE : E fmin = 0) (q k k' v v' : Fin S → Fin D → ℚ) (scale : ℚ) (i : Fin S)
    (hk : ∀ j : Fin S, (j : ℕ) ≤ (i : ℕ) → k j = k' j)
    (hv : ∀ j : Fin S, (j : ℕ) ≤ (i : ℕ) → v j = v' j) :
    ∀ d : Fin D, _ref_attention E fmin q k v scale true i d =
      _ref_attention E fmin q k' v' scale true i d := by
  intro d
  have hsc : ∀ j : Fin S, attn_scores q k scale true fmin i j
      = attn_scores q k' scale true fmin i j := by
    intro j
    unfold attn_scores masked_fill triu_ones matmulQKt
    by_cases hj : (i : ℕ) + 1 ≤ (j : ℕ)
    · simp [hj]
    · have hkj : k j = k' j := hk j (by omega)
      simp [hj, hkj]
  have hprob : ∀ j : Fin S, attn_probs E fmin q k scale true i j
      = attn_probs E fmin q k' scale true i j := by
    intro j
    unfold attn_probs softmax_last
    rw [hsc j]
    congr 1
    exact Finset.sum_congr rfl fun j' _ => by rw [hsc j']
  unfold _ref_attention
  refine Finset.sum_congr rfl fun j _ => ?_
  by_cases hj : (j : ℕ) ≤ (i : ℕ)
  · rw [hprob j, hv j hj]
  · have hij : (i : ℕ) + 1 ≤ (j : ℕ) := by omega
    have h1 : attn_probs E fmin q k scale true i j = 0 := by
      unfold attn_probs softmax_last attn_scores masked_fill triu_ones
      simp [hij, hE]
    have h2 : attn_probs E fmin q k' scale true i j = 0 := by
      unfold attn_probs softmax_last attn_scores masked_fill triu_ones
      simp [hij, hE]
    rw [h1, h2]
    ring

/-- A computable stand-in for the score dtype's exponential in concrete
witnesses: positive on moderate arguments, zero past the single-precision
underflow threshold (any argument below `-104`). -/
def E_test : ℚ → ℚ := fun x => if x ≤ -104 then 0 else 1

def qA : Fin 2 → Fin 1 → ℚ := fun _ _ => 1

def kA : Fin 2 → Fin 1 → ℚ := fun j _ => if (j : ℕ) = 0 then 1 else 2

def kB : Fin 2 → Fin 1 → ℚ := fun j _ => if (j : ℕ) = 0 then 1 else 5

def vA : Fin 2 → Fin 1 → ℚ := fun j _ => if (j : ℕ) = 0 then 3 else 4

def vB : Fin 2 → Fin 1 → ℚ := fun j _ => if (j : ℕ) = 0 then 3 else 9

/-- The test exponential underflows at the most negative single-precision
value. -/
lemma E_test_underflow : E_test float32_finfo_min = 0 := by
  have h : float32_finfo_min ≤ -104 := by norm_num [float32_finfo_min]
  simp [E_test, h]

/-- Witness for C4 at a concrete causal call: sequence length 2, position
`i = 0`, with the future key/value row (position 1) changed. -/
theorem C4_causal_no_future_leakage_witness :
    E_test float32_finfo_min = 0 ∧
    (∀ j : Fin 2, (j : ℕ) ≤ ((0 : Fin 2) : ℕ) → kA j = kB j) ∧
    (∀ j : Fin 2, (j : ℕ) ≤ ((0 : Fin 2) : ℕ) → vA j = vB j) ∧
    ∀ d : Fin 1, _ref_attention E_test float32_finfo_min qA kA vA 1 true 0 d =
      _ref_attention E_test float32_finfo_min qA kB vB 1 true 0 d :=
  ⟨E_test_underflow, by decide, by decide,
    C4_causal_no_future_leakage E_test float32_finfo_min E_test_underflow
      qA kA kB vA vB 1 0 (by decide) (by decide)⟩

def qC : Fin 1 → Fin 1 → ℚ := fun _ _ => 1

def gC : Fin 1 → Fin 1 → ℚ := fun _ _ => 1

/-- A saved dropout mask that dropped the only attention position. -/
def maskDrop : Fin 1 → Fin 1 → Bool := fun _ _ => false

/-- A saved dropout mask that kept every attention position. -/
def maskKeep : Fin 1 → Fin 1 → Bool := fun _ _ => true

/-- C1, counterexample: with `dropout_p = 1/2` and a saved mask that
dropped the single attention position, the fallback's gradient for `v`
(the reverse-mode gradient of the dropout-free `_ref_attention`, which
consults neither the mask nor `dropout_p`) is `1`, while the gradient
demanded by the dropout contract recorded in the mask — flow only through
kept positions, scaled by `1 / (1 - dropout_p)` — is `0`.  The fallback
therefore does not reproduce the native kernel's dropout contract. -/
theorem C1_fallback_ignores_dropout_counterexample :
    fallback_grad_v E_test float32_finfo_min qC qC 1 false gC 0 0 = 1 ∧
    dropout_contract_grad_v E_test float32_finfo_min qC qC 1 false maskDrop
      (1 / 2) gC 0 0 = 0 ∧
    fallback_grad_v E_test float32_finfo_min qC qC 1 false gC ≠
      dropout_contract_grad_v E_test float32_finfo_min qC qC 1 false maskDrop
        (1 / 2) gC := by
  have h1 : fallback_grad_v E_test float32_finfo_min qC qC 1 false gC 0 0 = 1 := by
    norm_num [fallback_grad_v, attn_probs, softmax_last, attn_scores, matmulQKt,
      E_test, qC, gC, Fin.sum_univ_one]
  have h2 : dropout_contract_grad_v E_test float32_finfo_min qC qC 1 false
      maskDrop (1 / 2) gC 0 0 = 0 := by
    norm_num [dropout_contract_grad_v, dropout_probs, maskDrop, Fin.sum_univ_one]
  refine ⟨h1, h2, fun h => ?_⟩
  have h0 := congrFun (congrFun h 0) 0
  rw [h1, h2] at h0
  exact one_ne_zero h0

/-- C1, amended: the backward fallback ignores the saved dropout mask and
`dropout_p`, computing gradients of the dropout-free reference attention;
it coincides with the inverted-dropout contract exactly in the degenerate
case — `dropout_p = 0` with a mask that kept every position. -/
theorem C1_fallback_matches_contract_only_without_dropout {S D : ℕ}
    (E : ℚ → ℚ) (fmin : ℚ) (q k : Fin S → Fin D → ℚ) (scale : ℚ)
    (causal : Bool) (g : Fin S → Fin D → ℚ) (mask : Fin S → Fin S → Bool)
    (hm : ∀ i j, mask i j = true) :
    dropout_contract_grad_v E fmin q k scale causal mask 0 g =
      fallback_grad_v E fmin q k scale causal g := by
  funext j d
  unfold dropout_contract_grad_v fallback_grad_v dropout_probs
  exact Finset.sum_congr rfl fun i _ => by simp [hm i j]

/-- Witness for the amended C1 at a concrete call with an all-keep mask. -/
theorem C1_fallback_matches_contract_witness :
    (∀ i j : Fin 1, maskKeep i j = true) ∧
    dropout_contract_grad_v E_test float32_finfo_min qC qC 1 false maskKeep 0 gC =
      fallback_grad_v E_test float32_finfo_min qC qC 1 false gC :=
  ⟨by decide,
    C1_fallback_matches_contract_only_without_dropout E_test float32_finfo_min
      qC qC 1 false gC maskKeep (by decide)⟩

/-! ## Concrete fixtures for the dispatcher claims -/

/-- A well-formed contiguous leaf tensor on the accelerator device,
shape `[8]`. -/
def t8 : Tensor :=
  { shape := [8], strides := [1], dtype := DType.float32, device := Device.mps,
    requiresGrad := false, isLeaf := true, data := List.replicate 8 1 }

/-- A five-object heap: incoming gradient at id 0, saved `q, k, v, mask`
at ids 1–4. -/
def s0 : Store := ⟨[t8, t8, t8, t8, t8]⟩

/-- A gradient context over `s0`. -/
def ctx0 : Ctx :=
  { qId := 1, kId := 2, vId := 3, maskId := 4,
    scale := 1, dropout_p := 1 / 2, causal := false }

/-- Environment with torch loaded and both native ops registered. -/
def env0 : TorchEnv := ⟨true, true, true⟩

/-- Environment with torch loaded but the backward op unregistered. -/
def env_noBwd : TorchEnv := ⟨true, true, false⟩

/-- A native backward kernel that always succeeds. -/
def kbwd_ok : KernelBwd := fun _ _ _ _ _ _ _ _ => .ok (t8, t8, t8)

/-- A native backward kernel that raises an exception that is not a
`RuntimeError`. -/
def kbwd_type_error : KernelBwd :=
  fun _ _ _ _ _ _ _ _ => .error (.otherError "TypeError: bad op schema")

/-- A native backward kernel that raises a `RuntimeError`. -/
def kbwd_runtime_error : KernelBwd :=
  fun _ _ _ _ _ _ _ _ => .error (.runtimeError "tensor storage is not shared")

/-- An autodiff oracle that returns gradients shaped like its inputs. -/
def ag0 : AutogradOracle := fun a b c _ _ _ => (a, b, c)

/-- C3, counterexample: with torch loaded but the native backward kernel
unregistered, the run with the verbose-diagnostics toggle on succeeds via
the reference fallback while the run with it off raises — the toggle
changes the outcome, not only the logging. -/
theorem C3_debug_toggle_changes_outcome_counterexample :
    FlashAttnFunction.backward true env_noBwd kbwd_ok ag0 ctx0 0 s0 ≠
      FlashAttnFunction.backward false env_noBwd kbwd_ok ag0 ctx0 0 s0 := by
  decide

/-- C3, amended: whenever the native backward kernel is registered, the
verbose-diagnostics toggle affects only logging: two runs of backward that
differ only in the toggle have identical outcomes (same gradients or same
error, and the same heap).  When the kernel is unregistered the toggle
selects between the reference fallback (on) and a fatal error (off). -/
theorem C3_debug_toggle_logging_only_when_registered
    (env : TorchEnv) (kbwd : KernelBwd) (ag : AutogradOracle) (ctx : Ctx)
    (gOutId : Nat) (s : Store) (hR : env.bwdRegistered = true) :
    FlashAttnFunction.backward true env kbwd ag ctx gOutId s =
      FlashAttnFunction.backward false env kbwd ag ctx gOutId s := by
  unfold FlashAttnFunction.backward
  simp [hR]

/-- Witness for the amended C3 at a concrete registered environment. -/
theorem C3_debug_toggle_witness :
    env0.bwdRegistered = true ∧
    FlashAttnFunction.backward true env0 kbwd_ok ag0 ctx0 0 s0 =
      FlashAttnFunction.backward false env0 kbwd_ok ag0 ctx0 0 s0 :=
  ⟨rfl, C3_debug_toggle_logging_only_when_registered env0 kbwd_ok ag0 ctx0 0 s0 rfl⟩

/-- C10: on every invocation that returns (accelerated or fallback path),
`FlashAttnFunction.backward` returns a 6-tuple whose last three components
are `None`: the scalar parameters `scale`, `dropout_p`, `causal` never
receive gradients (the first three components are the gradient tensors for
`q`, `k`, `v` produced by whichever path ran). -/
theorem C10_backward_scalar_params_get_no_gradients
    (dbg : Bool) (env : TorchEnv) (kbwd : KernelBwd) (ag : AutogradOracle)
    (ctx : Ctx) (gOutId : Nat) (s : Store)
    (r : Nat × Nat × Nat × Option Nat × Option Nat × Option Nat)
    (h : (FlashAttnFunction.backward dbg env kbwd ag ctx gOutId s).1 = .ok r) :
    r.2.2.2 = (none, none, none) := by
  obtain ⟨r1, r2, r3, r4, r5, r6⟩ := r
  unfold FlashAttnFunction.backward at h
  simp only [Store.alloc] at h
  split at h
  · simp at h
  · split at h
    · split at h
      · simp only [Except.ok.injEq, Prod.mk.injEq] at h
        simp [← h.2.2.2.1, ← h.2.2.2.2.1, ← h.2.2.2.2.2]
      · simp only [Except.ok.injEq, Prod.mk.injEq] at h
        simp [← h.2.2.2.1, ← h.2.2.2.2.1, ← h.2.2.2.2.2]
      · simp at h
    · split at h
      · simp only [Except.ok.injEq, Prod.mk.injEq] at h
        simp [← h.2.2.2.1, ← h.2.2.2.2.1, ← h.2.2.2.2.2]
      · simp at h

/-- Witness for C10 on a concrete successful accelerated invocation. -/
theorem C10_backward_scalar_params_witness :
    (FlashAttnFunction.backward false env0 kbwd_ok ag0 ctx0 0 s0).1 =
      .ok (5, 6, 7, none, none, none) ∧
    ((5, 6, 7, (none : Option Nat), (none : Option Nat), (none : Option Nat))).2.2.2 =
      (none, none, none) :=
  ⟨by decide,
    C10_backward_scalar_params_get_no_gradients false env0 kbwd_ok ag0 ctx0 0 s0
      (5, 6, 7, none, none, none) (by decide)⟩

/-! ## Frame lemmas: the dispatchers never write into pre-existing cells -/

lemma alloc_take (s : Store) (t : Tensor) (n : Nat) (h : n ≤ s.cells.length) :
    ((s.alloc t).2).cells.take n = s.cells.take n :=
  take_append_of_le _ _ _ h

lemma write_take (s : Store) (i : Nat) (t : Tensor) (n : Nat) (h : n ≤ i) :
    (s.write i t).cells.take n = s.cells.take n :=
  take_set_of_le _ _ _ _ h

lemma alloc_length (s : Store) (t : Tensor) :
    ((s.alloc t).2).cells.length = s.cells.length + 1 := by
  simp [Store.alloc]

lemma write_length (s : Store) (i : Nat) (t : Tensor) :
    (s.write i t).cells.length = s.cells.length := by
  simp [Store.write]

lemma contigS_take (i n : Nat) (s : Store) (h : n ≤ s.cells.length) :
    ((contigS i s).2).cells.take n = s.cells.take n := by
  unfold contigS
  by_cases hc : (!(s.read i).is_contiguous) = true
  · simp only [hc, if_true, Store.alloc]
    exact take_append_of_le _ _ _ h
  · simp [hc]

lemma contigS_length (i : Nat) (s : Store) :
    s.cells.length ≤ ((contigS i s).2).cells.length := by
  unfold contigS
  by_cases hc : (!(s.read i).is_contiguous) = true
  · simp [hc, Store.alloc]
  · simp [hc]

/-- The `try` block only writes into the three pre-allocated gradient
buffers: any shorter prefix of the heap survives it unchanged. -/
lemma try_metal_take (kbwd : KernelBwd) (go qs ks vs ms : Tensor)
    (sc p : ℚ) (cz : Bool) (gqId gkId gvId n : Nat) (s : Store)
    (h1 : n ≤ gqId) (h2 : n ≤ gkId) (h3 : n ≤ gvId) :
    ((try_metal kbwd go qs ks vs ms sc p cz gqId gkId gvId s).2).cells.take n =
      s.cells.take n := by
  unfold try_metal
  rcases hk : kbwd go qs ks vs ms sc p cz with e | ⟨gq_m, gk_m, gv_m⟩
  · simp [hk]
  · simp only [hk]
    rcases hc1 : copy_into (s.read gqId) gq_m with e1 | cq
    · simp [hc1]
    · simp only [hc1]
      rcases hc2 : copy_into ((s.write gqId cq).read gkId) gk_m with e2 | ck
      · simp [hc2, write_take _ _ _ _ h1]
      · simp only [hc2]
        rcases hc3 : copy_into (((s.write gqId cq).write gkId ck).read gvId) gv_m
            with e3 | cv
        · simp [hc3, write_take _ _ _ _ h2, write_take _ _ _ _ h1]
        · simp only [hc3]
          rw [write_take _ _ _ _ h3, write_take _ _ _ _ h2, write_take _ _ _ _ h1]

/-- The `try` block does not change the number of heap cells. -/
lemma try_metal_length (kbwd : KernelBwd) (go qs ks vs ms : Tensor)
    (sc p : ℚ) (cz : Bool) (gqId gkId gvId : Nat) (s : Store) :
    ((try_metal kbwd go qs ks vs ms sc p cz gqId gkId gvId s).2).cells.length =
      s.cells.length := by
  unfold try_metal
  rcases hk : kbwd go qs ks vs ms sc p cz with e | ⟨gq_m, gk_m, gv_m⟩
  · simp [hk]
  · simp only [hk]
    rcases hc1 : copy_into (s.read gqId) gq_m with e1 | cq
    · simp [hc1]
    · simp only [hc1]
      rcases hc2 : copy_into ((s.write gqId cq).read gkId) gk_m with e2 | ck
      · simp [hc2, write_length]
      · simp only [hc2]
        rcases hc3 : copy_into (((s.write gqId cq).write gkId ck).read gvId) gv_m
            with e3 | cv
        · simp [hc3, write_length]
        · simp only [hc3]
          simp [write_length]

/-- The forward-kernel invocation tail only allocates. -/
lemma forward_invoke_take (kfwd : KernelFwd) (qId kId vId : Nat)
    (sc p : ℚ) (cz : Bool) (n : Nat) (s : Store) (h : n ≤ s.cells.length) :
    ((forward_invoke kfwd qId kId vId sc p cz s).2).cells.take n =
      s.cells.take n := by
  unfold forward_invoke
  rcases hk : kfwd (s.read qId) (s.read kId) (s.read vId) sc p cz with e | ⟨out, mask⟩
  · simp [hk]
  · simp only [hk]
    rw [contigS_take, alloc_take, alloc_take _ _ _ h]
    · simpa [alloc_length] using Nat.le_succ_of_le h
    · calc n ≤ s.cells.length := h
        _ ≤ ((s.alloc out).2).cells.length := by simp [alloc_length]
        _ ≤ (((s.alloc out).2.alloc mask).2).cells.length := by simp [alloc_length]

lemma take_append3 (l : List Tensor) (a b c : Tensor) :
    (((l ++ [a]) ++ [b]) ++ [c]).take l.length = l := by
  rw [take_append_of_le, take_append_of_le, take_append_self] <;> simp

lemma take_append3_of_le (l : List Tensor) (n : Nat) (a b c : Tensor)
    (h : n ≤ l.length) :
    (((l ++ [a]) ++ [b]) ++ [c]).take n = l.take n := by
  rw [take_append_of_le, take_append_of_le, take_append_of_le _ _ _ h] <;>
    simp <;> omega

/-- The forward dispatcher never writes into pre-existing heap cells: the
initial heap is a prefix of the final one. -/
lemma forward_take (env : TorchEnv) (kfwd : KernelFwd) (qId kId vId : Nat)
    (sc p : ℚ) (cz : Bool) (s : Store) :
    ((FlashAttnFunction.forward env kfwd qId kId vId sc p cz s).2).cells.take
      s.cells.length = s.cells := by
  have l1 : s.cells.length ≤ ((contigS qId s).2).cells.length := contigS_length _ _
  have l2 : s.cells.length ≤ ((contigS kId (contigS qId s).2).2).cells.length :=
    Nat.le_trans l1 (contigS_length _ _)
  have l3 : s.cells.length ≤
      ((contigS vId (contigS kId (contigS qId s).2).2).2).cells.length :=
    Nat.le_trans l2 (contigS_length _ _)
  have t3 : ((contigS vId (contigS kId (contigS qId s).2).2).2).cells.take
      s.cells.length = s.cells := by
    rw [contigS_take _ _ _ l2, contigS_take _ _ _ l1,
      contigS_take _ _ _ (Nat.le_refl _), List.take_length]
  unfold FlashAttnFunction.forward
  split
  · exact List.take_length s.cells
  · split
    · exact List.take_length s.cells
    · split
      · exact List.take_length s.cells
      · split
        · rcases hL : ((contigS vId (contigS kId (contigS qId s).2).2).2.read
              (contigS qId s).1).shape.getLast? with _ | hd
          · simp only [hL]
            exact t3
          · simp only [hL]
            split
            · exact t3
            · exact t3
        · rcases hL : ((contigS vId (contigS kId (contigS qId s).2).2).2.read
              (contigS qId s).1).shape.getLast? with _ | hd
          · simp only [hL]
            exact t3
          · simp only [hL]
            split
            · exact t3
            · rw [forward_invoke_take _ _ _ _ _ _ _ _ _ l3]
              exact t3

/-- The backward dispatcher writes only into the gradient buffers it
allocates itself: the initial heap is a prefix of the final one. -/
lemma backward_take (dbg : Bool) (env : TorchEnv) (kbwd : KernelBwd)
    (ag : AutogradOracle) (ctx : Ctx) (gOutId : Nat) (s : Store) :
    ((FlashAttnFunction.backward dbg env kbwd ag ctx gOutId s).2).cells.take
      s.cells.length = s.cells := by
  have h1 : s.cells.length ≤ s.cells.length := Nat.le_refl _
  have h2 : s.cells.length ≤ (s.cells ++ [empty_like (s.read ctx.qId)]).length := by
    simp
  have h3 : s.cells.length ≤
      ((s.cells ++ [empty_like (s.read ctx.qId)]) ++
        [empty_like (s.read ctx.kId)]).length := by
    simp
  unfold FlashAttnFunction.backward
  simp only [Store.alloc]
  split
  · exact List.take_length s.cells
  · split
    · split
      · rename_i a s4 heq
        have hs4 := congrArg Prod.snd heq
        simp only at hs4
        rw [← hs4, try_metal_take _ _ _ _ _ _ _ _ _ _ _ _ _ _ h1 h2 h3]
        exact take_append3 s.cells _ _ _
      · rename_i msg s4 heq
        have hs4 := congrArg Prod.snd heq
        simp only at hs4
        have hl4 : s.cells.length ≤ s4.cells.length := by
          rw [← hs4, try_metal_length]
          simp
        rw [take_append3_of_le _ _ _ _ _ hl4, ← hs4,
          try_metal_take _ _ _ _ _ _ _ _ _ _ _ _ _ _ h1 h2 h3]
        exact take_append3 s.cells _ _ _
      · rename_i e s4 heq
        have hs4 := congrArg Prod.snd heq
        simp only at hs4
        rw [← hs4, try_metal_take _ _ _ _ _ _ _ _ _ _ _ _ _ _ h1 h2 h3]
        exact take_append3 s.cells _ _ _
    · split
      · rw [take_append3_of_le]
        · exact take_append3 s.cells _ _ _
        · simp
      · exact take_append3 s.cells _ _ _

/-- C8: neither dispatcher mutates caller-supplied tensors: every heap cell
that exists when `forward` or `backward` is invoked — including the caller's
`q`, `k`, `v`, the incoming `grad_output`, and the saved `mask` — holds the
identical tensor (contents, shape, strides, flags) afterwards; layout
changes happen on freshly allocated copies, and native-kernel results are
copied only into the gradient buffers `backward` allocates itself. -/
theorem C8_dispatchers_never_mutate_caller_tensors (env : TorchEnv)
    (kfwd : KernelFwd) (kbwd : KernelBwd) (ag : AutogradOracle) (dbg : Bool)
    (qId kId vId : Nat) (scale dropout_p : ℚ) (causal : Bool) (ctx : Ctx)
    (gOutId : Nat) (s : Store) :
    ((FlashAttnFunction.forward env kfwd qId kId vId scale dropout_p causal
        s).2).cells.take s.cells.length = s.cells ∧
    ((FlashAttnFunction.backward dbg env kbwd ag ctx gOutId
        s).2).cells.take s.cells.length = s.cells :=
  ⟨forward_take env kfwd qId kId vId scale dropout_p causal s,
   backward_take dbg env kbwd ag ctx gOutId s⟩

/-- Reading a store cell at the length of the left part of an append. -/
lemma read_at_append (A rest : List Tensor) (a : Tensor) (i : Nat)
    (h : i = A.length) : (Store.mk (A ++ a :: rest)).read i = a := by
  subst h
  exact getD_append_cons _ _ _ _

/-- C2, counterexample: the backward dispatcher catches only
`RuntimeError` (`except RuntimeError as e`); a native backward kernel
raising any other exception class — here a `TypeError` — propagates to the
caller instead of triggering the Reference-Attention fallback. -/
theorem C2_non_runtime_error_propagates_counterexample :
    (FlashAttnFunction.backward false env0 kbwd_type_error ag0 ctx0 0 s0).1 =
      .error (.otherError "TypeError: bad op schema") := by
  decide

/-- C2, amended: if the native backward kernel raises a `RuntimeError`
during execution, backward recovers by the Reference-Attention fallback and
returns three gradient tensors with the same shapes as the saved `q`, `k`,
and `v` (plus `None` for the scalar parameters), and no exception
propagates to the caller; exceptions of other classes are not caught.
`hag` is the contract of the external autodiff engine: gradients have the
shapes of the differentiated inputs. -/
theorem C2_runtime_error_recovered_by_fallback (dbg : Bool) (env : TorchEnv)
    (kbwd : KernelBwd) (ag : AutogradOracle) (ctx : Ctx) (gOutId : Nat)
    (s : Store) (msg : String)
    (hT : env.torchLoaded = true) (hR : env.bwdRegistered = true)
    (hk : ∀ go qs ks vs ms, kbwd go qs ks vs ms ctx.scale ctx.dropout_p
      ctx.causal = .error (.runtimeError msg))
    (hag : ∀ a b c sc cz g,
      (ag a b c sc cz g).1.shape = a.shape ∧
      (ag a b c sc cz g).2.1.shape = b.shape ∧
      (ag a b c sc cz g).2.2.shape = c.shape) :
    ∃ r1 r2 r3 : Nat,
      (FlashAttnFunction.backward dbg env kbwd ag ctx gOutId s).1 =
        .ok (r1, r2, r3, none, none, none) ∧
      (((FlashAttnFunction.backward dbg env kbwd ag ctx gOutId s).2).read
        r1).shape = (s.read ctx.qId).shape ∧
      (((FlashAttnFunction.backward dbg env kbwd ag ctx gOutId s).2).read
        r2).shape = (s.read ctx.kId).shape ∧
      (((FlashAttnFunction.backward dbg env kbwd ag ctx gOutId s).2).read
        r3).shape = (s.read ctx.vId).shape := by
  have htm : ∀ (gq gk gv : Nat) (st : Store),
      try_metal kbwd (ensT (s.read gOutId)) (ensT (s.read ctx.qId))
        (ensT (s.read ctx.kId)) (ensT (s.read ctx.vId))
        (ensT (s.read ctx.maskId)) ctx.scale ctx.dropout_p ctx.causal
        gq gk gv st = (.error (.runtimeError msg), st) := by
    intro gq gk gv st
    unfold try_metal
    rw [hk]
  have hbw : FlashAttnFunction.backward dbg env kbwd ag ctx gOutId s =
      (.ok (s.cells.length + 3, s.cells.length + 4, s.cells.length + 5,
          none, none, none),
        Store.mk ((((((s.cells ++ [empty_like (s.read ctx.qId)]) ++
          [empty_like (s.read ctx.kId)]) ++
          [empty_like (s.read ctx.vId)]) ++
          [(reference_fallback ag (s.read ctx.qId) (s.read ctx.kId)
              (s.read ctx.vId) ctx.scale ctx.causal
              (ensT (s.read gOutId))).1]) ++
          [(reference_fallback ag (s.read ctx.qId) (s.read ctx.kId)
              (s.read ctx.vId) ctx.scale ctx.causal
              (ensT (s.read gOutId))).2.1]) ++
          [(reference_fallback ag (s.read ctx.qId) (s.read ctx.kId)
              (s.read ctx.vId) ctx.scale ctx.causal
              (ensT (s.read gOutId))).2.2])) := by
    unfold FlashAttnFunction.backward
    simp [Store.alloc, hT, hR, htm]
  refine ⟨s.cells.length + 3, s.cells.length + 4, s.cells.length + 5,
    ?_, ?_, ?_, ?_⟩
  · rw [hbw]
  · rw [hbw]
    have hrw : (((((s.cells ++ [empty_like (s.read ctx.qId)]) ++
          [empty_like (s.read ctx.kId)]) ++
          [empty_like (s.read ctx.vId)]) ++
          [(reference_fallback ag (s.read ctx.qId) (s.read ctx.kId)
              (s.read ctx.vId) ctx.scale ctx.causal
              (ensT (s.read gOutId))).1]) ++
          [(reference_fallback ag (s.read ctx.qId) (s.read ctx.kId)
              (s.read ctx.vId) ctx.scale ctx.causal
              (ensT (s.read gOutId))).2.1]) ++
          [(reference_fallback ag (s.read ctx.qId) (s.read ctx.kId)
              (s.read ctx.vId) ctx.scale ctx.causal
              (ensT (s.read gOutId))).2.2] =
        (((s.cells ++ [empty_like (s.read ctx.qId)]) ++
          [empty_like (s.read ctx.kId)]) ++
          [empty_like (s.read ctx.vId)]) ++
          (reference_fallback ag (s.read ctx.qId) (s.read ctx.kId)
              (s.read ctx.vId) ctx.scale ctx.causal
              (ensT (s.read gOutId))).1 ::
          [(reference_fallback ag (s.read ctx.qId) (s.read ctx.kId)
              (s.read ctx.vId) ctx.scale ctx.causal
              (ensT (s.read gOutId))).2.1,
           (reference_fallback ag (s.read ctx.qId) (s.read ctx.kId)
              (s.read ctx.vId) ctx.scale ctx.causal
              (ensT (s.read gOutId))).2.2] := by
      simp
    rw [hrw, read_at_append _ _ _ _ (by simp)]
    exact (hag _ _ _ _ _ _).1
  · rw [hbw]
    have hrw : (((((s.cells ++ [empty_like (s.read ctx.qId)]) ++
          [empty_like (s.read ctx.kId)]) ++
          [empty_like (s.read ctx.vId)]) ++
          [(reference_fallback ag (s.read ctx.qId) (s.read ctx.kId)
              (s.read ctx.vId) ctx.scale ctx.causal
              (ensT (s.read gOutId))).1]) ++
          [(reference_fallback ag (s.read ctx.qId) (s.read ctx.kId)
              (s.read ctx.vId) ctx.scale ctx.causal
              (ensT (s.read gOutId))).2.1]) ++
          [(reference_fallback ag (s.read ctx.qId) (s.read ctx.kId)
              (s.read ctx.vId) ctx.scale ctx.causal
              (ensT (s.read gOutId))).2.2] =
        ((((s.cells ++ [empty_like (s.read ctx.qId)]) ++
          [empty_like (s.read ctx.kId)]) ++
          [empty_like (s.read ctx.vId)]) ++
          [(reference_fallback ag (s.read ctx.qId) (s.read ctx.kId)
              (s.read ctx.vId) ctx.scale ctx.causal
              (ensT (s.read gOutId))).1]) ++
          (reference_fallback ag (s.read ctx.qId) (s.read ctx.kId)
              (s.read ctx.vId) ctx.scale ctx.causal
              (ensT (s.read gOutId))).2.1 ::
          [(reference_fallback ag (s.read ctx.qId) (s.read ctx.kId)
              (s.read ctx.vId) ctx.scale ctx.causal
              (ensT (s.read gOutId))).2.2] := by
      simp
    rw [hrw, read_at_append _ _ _ _ (by simp)]
    exact (hag _ _ _ _ _ _).2.1
  · rw [hbw]
    have hrw : (((((s.cells ++ [empty_like (s.read ctx.qId)]) ++
          [empty_like (s.read ctx.kId)]) ++
          [empty_like (s.read ctx.vId)]) ++
          [(reference_fallback ag (s.read ctx.qId) (s.read ctx.kId)
              (s.read ctx.vId) ctx.scale ctx.causal
              (ensT (s.read gOutId))).1]) ++
          [(reference_fallback ag (s.read ctx.qId) (s.read ctx.kId)
              (s.read ctx.vId) ctx.scale ctx.causal
              (ensT (s.read gOutId))).2.1]) ++
          [(reference_fallback ag (s.read ctx.qId) (s.read ctx.kId)
              (s.read ctx.vId) ctx.scale ctx.causal
              (ensT (s.read gOutId))).2.2] =
        (((((s.cells ++ [empty_like (s.read ctx.qId)]) ++
          [empty_like (s.read ctx.kId)]) ++
          [empty_like (s.read ctx.vId)]) ++
          [(reference_fallback ag (s.read ctx.qId) (s.read ctx.kId)
              (s.read ctx.vId) ctx.scale ctx.causal
              (ensT (s.read gOutId))).1]) ++
          [(reference_fallback ag (s.read ctx.qId) (s.read ctx.kId)
              (s.read ctx.vId) ctx.scale ctx.causal
              (ensT (s.read gOutId))).2.1]) ++
          (reference_fallback ag (s.read ctx.qId) (s.read ctx.kId)
              (s.read ctx.vId) ctx.scale ctx.causal
              (ensT (s.read gOutId))).2.2 :: [] := by
      simp
    rw [hrw, read_at_append _ _ _ _ (by simp)]
    exact (hag _ _ _ _ _ _).2.2

/-- Witness for the amended C2: a concrete registered environment whose
native backward kernel raises a `RuntimeError` on every call. -/
theorem C2_runtime_error_recovered_witness :
    env0.torchLoaded = true ∧ env0.bwdRegistered = true ∧
    ∃ r1 r2 r3 : Nat,
      (FlashAttnFunction.backward false env0 kbwd_runtime_error ag0 ctx0 0
        s0).1 = .ok (r1, r2, r3, none, none, none) ∧
      (((FlashAttnFunction.backward false env0 kbwd_runtime_error ag0 ctx0 0
        s0).2).read r1).shape = (s0.read ctx0.qId).shape ∧
      (((FlashAttnFunction.backward false env0 kbwd_runtime_error ag0 ctx0 0
        s0).2).read r2).shape = (s0.read ctx0.kId).shape ∧
      (((FlashAttnFunction.backward false env0 kbwd_runtime_error ag0 ctx0 0
        s0).2).read r3).shape = (s0.read ctx0.vId).shape :=
  ⟨rfl, rfl,
    C2_runtime_error_recovered_by_fallback false env0 kbwd_runtime_error ag0
      ctx0 0 s0 "tensor storage is not shared" rfl rfl
      (fun _ _ _ _ _ => rfl) (fun _ _ _ _ _ _ => ⟨rfl, rfl, rfl⟩)⟩

lemma contigS_fst_lt (i : Nat) (s : Store) (h : i < s.cells.length) :
    (contigS i s).1 < (contigS i s).2.cells.length := by
  unfold contigS
  by_cases hc : (!(s.read i).is_contiguous) = true
  · simp [hc, Store.alloc]
  · simp [hc, h]

lemma contigS_read_of_lt (i j : Nat) (s : Store) (h : j < s.cells.length) :
    (contigS i s).2.read j = s.read j := by
  unfold contigS
  by_cases hc : (!(s.read i).is_contiguous) = true
  · simp only [hc, if_true, Store.alloc]
    exact getD_append_of_lt _ _ _ _ h
  · simp [hc]

/-- The contiguous materialization of `_contig` preserves the shape of the
tensor the forward dispatcher goes on to validate. -/
lemma contigS_read_self_shape (i : Nat) (s : Store) :
    ((contigS i s).2.read (contigS i s).1).shape = (s.read i).shape := by
  unfold contigS
  by_cases hc : (!(s.read i).is_contiguous) = true
  · simp only [hc, if_true, Store.alloc]
    show ((s.cells ++ contiguousOp (s.read i) :: []).getD
      s.cells.length default).shape = (s.read i).shape
    rw [getD_append_cons]
    unfold contiguousOp
    split <;> rfl
  · simp [hc]

/-- C6: with torch loaded, the native forward op registered, and `q, k, v`
live accelerator tensors, forward raises a `ValueError` before invoking the
native forward kernel (the outcome is the same for every kernel) whenever
`head_dim` — the last dimension of `q` — is not a multiple of 8 or
`dropout_p` lies outside `[0, 1)`; and when `head_dim` is a multiple of 8
and `dropout_p` is in `[0, 1)`, both validation checks pass and control
reaches the kernel invocation. -/
theorem C6_forward_validates_head_dim_and_dropout (env : TorchEnv)
    (qId kId vId : Nat) (scale dropout_p : ℚ) (causal : Bool) (s : Store)
    (head_dim : Nat)
    (hT : env.torchLoaded = true) (hR : env.fwdRegistered = true)
    (hq : (s.read qId).device = Device.mps)
    (hk : (s.read kId).device = Device.mps)
    (hv : (s.read vId).device = Device.mps)
    (hqId : qId < s.cells.length)
    (hsh : (s.read qId).shape.getLast? = some head_dim) :
    ((head_dim % 8 ≠ 0 ∨ dropout_p < 0 ∨ 1 ≤ dropout_p) →
      ∀ kfwd kfwd' : KernelFwd,
        is_value_error (FlashAttnFunction.forward env kfwd qId kId vId scale
          dropout_p causal s).1 = true ∧
        (FlashAttnFunction.forward env kfwd qId kId vId scale dropout_p
          causal s).1 =
          (FlashAttnFunction.forward env kfwd' qId kId vId scale dropout_p
            causal s).1) ∧
    (head_dim % 8 = 0 → 0 ≤ dropout_p → dropout_p < 1 →
      ∀ kfwd : KernelFwd,
        FlashAttnFunction.forward env kfwd qId kId vId scale dropout_p
          causal s =
        forward_invoke kfwd (contigS qId s).1
          (contigS kId (contigS qId s).2).1
          (contigS vId (contigS kId (contigS qId s).2).2).1
          scale dropout_p causal
          (contigS vId (contigS kId (contigS qId s).2).2).2) := by
  have hq1 : (contigS qId s).1 < (contigS qId s).2.cells.length :=
    contigS_fst_lt _ _ hqId
  have hq2 : (contigS qId s).1 <
      (contigS kId (contigS qId s).2).2.cells.length :=
    Nat.lt_of_lt_of_le hq1 (contigS_length _ _)
  have hshape3 : ((contigS vId (contigS kId (contigS qId s).2).2).2.read
      (contigS qId s).1).shape.getLast? = some head_dim := by
    rw [contigS_read_of_lt _ _ _ hq2, contigS_read_of_lt _ _ _ hq1,
      contigS_read_self_shape, hsh]
  have hfwd : ∀ kfwd : KernelFwd,
      FlashAttnFunction.forward env kfwd qId kId vId scale dropout_p causal s =
      (if head_dim % 8 ≠ 0 then
        (.error (.valueError "head_dim must be multiple of eight"),
          (contigS vId (contigS kId (contigS qId s).2).2).2)
      else if ¬ (0 ≤ dropout_p ∧ dropout_p < 1) then
        (.error (.valueError "dropout_p must be in [0,1)"),
          (contigS vId (contigS kId (contigS qId s).2).2).2)
      else
        forward_invoke kfwd (contigS qId s).1
          (contigS kId (contigS qId s).2).1
          (contigS vId (contigS kId (contigS qId s).2).2).1
          scale dropout_p causal
          (contigS vId (contigS kId (contigS qId s).2).2).2) := by
    intro kfwd
    unfold FlashAttnFunction.forward
    rw [hT, hR]
    rw [if_neg (by simp), if_neg (by simp), if_neg (by simp [hq, hk, hv])]
    simp only [hshape3]
  constructor
  · intro hbad kfwd kfwd'
    by_cases hhd : head_dim % 8 ≠ 0
    · rw [hfwd kfwd, hfwd kfwd']
      simp only [if_pos hhd]
      exact ⟨rfl, trivial⟩
    · have hdp : ¬ (0 ≤ dropout_p ∧ dropout_p < 1) := by
        rcases hbad with h | h | h
        · exact absurd h hhd
        · exact fun hc => absurd h (not_lt.mpr hc.1)
        · exact fun hc => absurd hc.2 (not_lt.mpr h)
      rw [hfwd kfwd, hfwd kfwd']
      simp only [if_neg hhd, if_pos hdp]
      exact ⟨rfl, trivial⟩
  · intro hhd h0 h1 kfwd
    rw [hfwd kfwd, if_neg (by simp [hhd]), if_neg (not_not_intro ⟨h0, h1⟩)]

/-- Witness for C6 at a concrete configured call: `q` of shape `[8]`
(`head_dim = 8`), `dropout_p = 1/2`. -/
theorem C6_forward_validation_witness :
    env0.torchLoaded = true ∧ (s0.read 1).device = Device.mps ∧
    (s0.read 1).shape.getLast? = some 8 ∧
    (((8 % 8 ≠ 0 ∨ (1 / 2 : ℚ) < 0 ∨ (1 : ℚ) ≤ 1 / 2) →
      ∀ kfwd kfwd' : KernelFwd,
        is_value_error (FlashAttnFunction.forward env0 kfwd 1 2 3 1 (1 / 2)
          false s0).1 = true ∧
        (FlashAttnFunction.forward env0 kfwd 1 2 3 1 (1 / 2) false s0).1 =
          (FlashAttnFunction.forward env0 kfwd' 1 2 3 1 (1 / 2) false s0).1) ∧
    (8 % 8 = 0 → 0 ≤ (1 / 2 : ℚ) → (1 / 2 : ℚ) < 1 →
      ∀ kfwd : KernelFwd,
        FlashAttnFunction.forward env0 kfwd 1 2 3 1 (1 / 2) false s0 =
        forward_invoke kfwd (contigS 1 s0).1 (contigS 2 (contigS 1 s0).2).1
          (contigS 3 (contigS 2 (contigS 1 s0).2).2).1 1 (1 / 2) false
          (contigS 3 (contigS 2 (contigS 1 s0).2).2).2)) :=
  ⟨rfl, rfl, rfl,
    C6_forward_validates_head_dim_and_dropout env0 1 2 3 1 (1 / 2) false s0 8
      rfl rfl rfl rfl rfl (by decide) rfl⟩
